import Mathlib

/-!
Verification of the transcript-extraction and style-conditioning pipeline of
`bot.py` (a chat-style-imitation bot).  The Python functions `clean_data`,
`generate_prompt`, `get_ai_response`, `handle_interlocutor_name` and
`chat_mode` are shallowly embedded as pure Lean functions; JSON-dynamic
values are embedded as inductive types covering the shapes the code
distinguishes.
-/

namespace Bot

/-- `DEFAULT_MESSAGES_COUNT = 750` in `bot.py`: the default cap on the number
of extracted messages. -/
def DEFAULT_MESSAGES_COUNT : Nat := 750

/-- One element of a fragment-list `text` field.  The Python code keeps a
fragment exactly when it is a dict with a `"text"` key (whose value is a
string in every export the code can process without raising); every other
element is ignored.  `withText s` embeds a dict fragment carrying the string
`s` under `"text"`; `withoutText` embeds any other element. -/
inductive Fragment where
  | withText (s : String)
  | withoutText
deriving DecidableEq, Repr

/-- The `"text"` field of a raw export entry, as the code inspects it:
absent, a plain string, a list of fragments, or any other JSON value
(`other`), which the code treats as empty text. -/
inductive RawText where
  | absent
  | str (s : String)
  | list (frags : List Fragment)
  | other
deriving DecidableEq, Repr

/-- One entry of the raw `messages` list.  `notDict` embeds any non-dict
JSON value (skipped by the code).  For a dict, `sender` is the `"from"`
field (`none` when absent or not the requested string), `text` the `"text"`
field and `date` the `"date"` field (`none` when absent). -/
inductive RawEntry where
  | notDict
  | dict (sender : Option String) (text : RawText) (date : Option String)
deriving DecidableEq, Repr

/-- The record appended by `clean_data`: `{"from": ..., "text": ..., "date": ...}`.
The Python key `"from"` is embedded as the field `fromName`. -/
structure CleanedMessage where
  fromName : String
  text : String
  date : String
deriving DecidableEq, Repr

/-- Python's `str.strip()` with no argument, as `clean_data` uses it:
remove leading and trailing whitespace (whitespace modelled by
`Char.isWhitespace`). -/
def pyStrip (s : String) : String :=
  String.mk (((s.data.dropWhile Char.isWhitespace).reverse.dropWhile Char.isWhitespace).reverse)

/-- The `"text"` sub-field of a fragment, when present: the filter
`isinstance(entity, dict) and "text" in entity` of `bot.py`. -/
def fragText : Fragment → Option String
  | Fragment.withText s => some s
  | Fragment.withoutText => none

/-- Text extraction from a raw `text` field (`bot.py` lines 62-71): a plain
string is used verbatim; a fragment list is flattened by joining the kept
fragments' `"text"` sub-fields; anything else yields `""`. -/
def extractText : RawText → String
  | RawText.absent => ""
  | RawText.str s => s
  | RawText.list frags => String.join (frags.filterMap fragText)
  | RawText.other => ""

/-- The loop body of `clean_data` (`bot.py` lines 50-80): scan the (already
reversed) entry list, appending a cleaned record for each qualifying entry to
the back of the accumulator, and stop as soon as the accumulator holds
`maxMessages` records. -/
def cleanLoop (interlocutorName : String) (maxMessages : Nat) :
    List RawEntry → List CleanedMessage → List CleanedMessage
  | [], acc => acc
  | msg :: rest, acc =>
    if maxMessages ≤ acc.length then acc
    else
      match msg with
      | RawEntry.notDict => cleanLoop interlocutorName maxMessages rest acc
      | RawEntry.dict sender text date =>
        if sender ≠ some interlocutorName then
          cleanLoop interlocutorName maxMessages rest acc
        else
          let t := extractText text
          if pyStrip t = "" then cleanLoop interlocutorName maxMessages rest acc
          else
            cleanLoop interlocutorName maxMessages rest
              (acc ++ [{ fromName := interlocutorName, text := t, date := date.getD "" }])

/-- `clean_data(data, interlocutor_name, max_messages)` (`bot.py` lines 41-82):
iterate over `reversed(data)` collecting at most `maxMessages` cleaned
records, then reverse the accumulator back into original order. -/
def clean_data (data : List RawEntry) (interlocutorName : String)
    (maxMessages : Nat) : List CleanedMessage :=
  (cleanLoop interlocutorName maxMessages data.reverse []).reverse

/-- The per-entry qualification-and-cleaning step of `clean_data`, with no
cap: `some c` exactly when the entry is a dict whose `"from"` equals the
requested name and whose extracted text is not blank, `c` being the record
`clean_data` would append for it. -/
def cleanOpt (interlocutorName : String) : RawEntry → Option CleanedMessage
  | RawEntry.notDict => none
  | RawEntry.dict sender text date =>
    if sender = some interlocutorName then
      let t := extractText text
      if pyStrip t = "" then none
      else some { fromName := interlocutorName, text := t, date := date.getD "" }
    else none

/-- `generate_prompt(interlocutor_name, cleaned_data)` (`bot.py` lines 91-105):
render each cleaned message with the f-string
`"{msg['from']} ({msg['date']}): {msg['text']}"`, join the lines with
newlines, and wrap them in the fixed Russian instruction template.  The two
final adjacent Python string literals concatenate without a separator, which
is kept here. -/
def generate_prompt (interlocutorName : String) (cleanedData : List CleanedMessage) : String :=
  let messages := String.intercalate "\n"
    (cleanedData.map fun msg => msg.fromName ++ " (" ++ msg.date ++ "): " ++ msg.text)
  "Ты имитируешь стиль общения человека по имени " ++ interlocutorName ++ ".\n" ++
    "Вот примеры его сообщений:\n\n" ++
    messages ++ "\n\n" ++
    "Отвечай так, как бы ответил этот человек, сохраняя его стиль, " ++
    "манеру речи и особенности общения. Не упоминай, что ты ИИ. " ++
    "Длина ответа должна быть естественной для диалога." ++
    "Отвечай ТОЛЬКО текстом сообщения, без указания имени, даты или других метаданных."

/-- Spec-side rendering of one transcript line, following the spec wording:
each CleanedMessage is rendered as `"{from} ({date}): {text}"`. -/
def renderLineSpec (msg : CleanedMessage) : String :=
  msg.fromName ++ " (" ++ msg.date ++ "): " ++ msg.text

/-- Spec-side fixed template part that precedes the rendered lines (names the
persona to imitate and introduces the example material). -/
def promptHead (interlocutorName : String) : String :=
  "Ты имитируешь стиль общения человека по имени " ++ interlocutorName ++
    ".\nВот примеры его сообщений:\n\n"

/-- Spec-side fixed template part that follows the rendered lines (the
instruction text; independent of name and transcript). -/
def promptTail : String :=
  "\n\nОтвечай так, как бы ответил этот человек, сохраняя его стиль, " ++
    "манеру речи и особенности общения. Не упоминай, что ты ИИ. " ++
    "Длина ответа должна быть естественной для диалога." ++
    "Отвечай ТОЛЬКО текстом сообщения, без указания имени, даты или других метаданных."

/-- Spec-side prompt builder: the rendered lines joined by newlines in
transcript order, wrapped in the fixed template. -/
def buildSpec (interlocutorName : String) (transcript : List CleanedMessage) : String :=
  promptHead interlocutorName ++
    String.intercalate "\n" (transcript.map renderLineSpec) ++ promptTail

/-- Spec-side fragment flattening, following the spec wording: concatenate,
in list order, the `text` sub-field of every fragment that has one, ignoring
fragments without one. -/
def flattenSpec : List Fragment → String
  | [] => ""
  | Fragment.withText s :: rest => s ++ flattenSpec rest
  | Fragment.withoutText :: rest => flattenSpec rest

/-- The fixed user-safe fallback string returned by `get_ai_response` on any
failure of the external call (`bot.py` line 122). -/
def fallback_message : String := "⚠️ Ошибка генерации ответа. Попробуйте позже."

/-- `get_ai_response(prompt, user_input)` (`bot.py` lines 107-122), with the
external OpenAI call made explicit: `callResult` is the outcome of
`openai.ChatCompletion.create(...)` plus the response-field accesses —
`Except.ok content` when the call returns a message content, `Except.error e`
when anything in the `try` block raises.  On success the content is
stripped; on failure the fixed fallback string is returned and the exception
is not propagated. -/
def get_ai_response (callResult : Except String String) : String :=
  match callResult with
  | Except.ok content => pyStrip content
  | Except.error _ => fallback_message

/-- The conversation states of the bot: `UPLOAD, GET_NAME, CHAT_MODE = range(3)`
(`bot.py` line 24) plus the library constant `ConversationHandler.END`. -/
inductive ConvState where
  | UPLOAD
  | GET_NAME
  | CHAT_MODE
  | END
deriving DecidableEq, Repr

/-- One entry of the per-user turn history: `{"role": ..., "content": ...}`. -/
structure Turn where
  role : String
  content : String
deriving DecidableEq, Repr

/-- `chat_mode(update, context)` (`bot.py` lines 227-244) with the transport
made explicit: given the incoming text, the stored history and the outcome of
the external completion call, it appends the user turn, computes the reply
via `get_ai_response`, appends the reply as an assistant turn, and returns
(new history, emitted reply, next state).  It always returns `CHAT_MODE`. -/
def chat_mode (userInput : String) (history : List Turn)
    (callResult : Except String String) : List Turn × String × ConvState :=
  let historyWithUser := history ++ [{ role := "user", content := userInput }]
  let response := get_ai_response callResult
  (historyWithUser ++ [{ role := "assistant", content := response }],
    response, ConvState.CHAT_MODE)

/-- The user-visible report chosen by `handle_interlocutor_name`, embedded as
a tag (the exact Russian reply texts are transport-level constants). -/
inductive Reply where
  | missingData
  | noMessagesFound (name : String)
  | analysisComplete (count : Nat) (name : String)
deriving DecidableEq, Repr

/-- The observable outcome of the name-processing handler: the report sent,
the returned conversation state, and the stored prompt and (reset) history
when chat mode is entered. -/
structure NameStepResult where
  reply : Reply
  nextState : ConvState
  storedPrompt : Option String
  storedHistory : Option (List Turn)
deriving DecidableEq, Repr

/-- `handle_interlocutor_name(update, context)` (`bot.py` lines 182-225) on
its in-memory state: `jsonData` is `context.user_data['json_data']["messages"]`
when raw data is stored, `none` when `'json_data' not in user_data`.  With no
stored data it reports the missing-data error and returns
`ConversationHandler.END`; with an empty extraction result it reports that no
messages from the name were found and returns `GET_NAME`; otherwise it stores
the generated prompt and an empty history and returns `CHAT_MODE`.  (The
`save_conversation` file write is an external side effect, not modelled.) -/
def handle_interlocutor_name (interlocutorName : String)
    (jsonData : Option (List RawEntry)) : NameStepResult :=
  match jsonData with
  | none =>
    { reply := Reply.missingData, nextState := ConvState.END,
      storedPrompt := none, storedHistory := none }
  | some msgs =>
    let cleaned := clean_data msgs interlocutorName DEFAULT_MESSAGES_COUNT
    if cleaned.isEmpty then
      { reply := Reply.noMessagesFound interlocutorName, nextState := ConvState.GET_NAME,
        storedPrompt := none, storedHistory := none }
    else
      { reply := Reply.analysisComplete cleaned.length interlocutorName,
        nextState := ConvState.CHAT_MODE,
        storedPrompt := some (generate_prompt interlocutorName cleaned),
        storedHistory := some [] }

/-- A concrete export with three qualifying messages from "A" (and one from
"B"), used to exercise the truncation behaviour at cap 2. -/
def dataRecent : List RawEntry :=
  [RawEntry.dict (some "A") (RawText.str "one") (some "d1"),
   RawEntry.dict (some "B") (RawText.str "x") (some "d2"),
   RawEntry.dict (some "A") (RawText.str "two") (some "d3"),
   RawEntry.dict (some "A") (RawText.str "three") (some "d4")]

/-- A concrete export whose only qualifying message has text `" hi "`,
carrying leading and trailing whitespace. -/
def dataPadded : List RawEntry :=
  [RawEntry.dict (some "Alice") (RawText.str " hi ") none]

/-- A concrete export containing no message from "Carol". -/
def dataNoCarol : List RawEntry :=
  [RawEntry.dict (some "Alice") (RawText.str "hi") (some "d1"),
   RawEntry.dict (some "Bob") (RawText.str "yo") (some "d2")]

theorem cleanLoop_eq (name : String) (maxM : Nat) :
    ∀ (l : List RawEntry) (acc : List CleanedMessage),
      cleanLoop name maxM l acc =
        acc ++ (List.filterMap (cleanOpt name) l).take (maxM - acc.length) := by
  intro l
  induction l with
  | nil =>
    intro acc
    simp [cleanLoop]
  | cons msg rest ih =>
    intro acc
    by_cases hcap : maxM ≤ acc.length
    · rw [Nat.sub_eq_zero_of_le hcap]
      cases msg <;> simp [cleanLoop, hcap]
    · cases msg with
      | notDict =>
        simp [cleanLoop, hcap, cleanOpt, ih]
      | dict sender text date =>
        by_cases hs : sender = some name
        · by_cases ht : pyStrip (extractText text) = ""
          · simp [cleanLoop, hcap, hs, ht, cleanOpt, ih]
          · have hk : maxM - acc.length = (maxM - (acc.length + 1)) + 1 := by omega
            simp [cleanLoop, hcap, hs, ht, cleanOpt, ih, hk, List.take_succ_cons]
        · simp [cleanLoop, hcap, hs, cleanOpt, ih]

theorem clean_data_eq_drop (data : List RawEntry) (name : String) (maxM : Nat) :
    clean_data data name maxM =
      (List.filterMap (cleanOpt name) data).drop
        ((List.filterMap (cleanOpt name) data).length - maxM) := by
  unfold clean_data
  rw [cleanLoop_eq]
  simp [List.filterMap_reverse, List.take_reverse]

theorem cleanOpt_eq_some (name : String) (e : RawEntry) (m : CleanedMessage)
    (h : cleanOpt name e = some m) : m.fromName = name ∧ pyStrip m.text ≠ "" := by
  cases e with
  | notDict => simp [cleanOpt] at h
  | dict sender text date =>
    by_cases hs : sender = some name
    · by_cases ht : pyStrip (extractText text) = ""
      · simp [cleanOpt, hs, ht] at h
      · simp [cleanOpt, hs, ht] at h
        subst h
        exact ⟨rfl, ht⟩
    · simp [cleanOpt, hs] at h

theorem mem_clean_data (data : List RawEntry) (name : String) (maxM : Nat)
    (m : CleanedMessage) (hm : m ∈ clean_data data name maxM) :
    m.fromName = name ∧ pyStrip m.text ≠ "" := by
  rw [clean_data_eq_drop] at hm
  obtain ⟨e, _, hsome⟩ := List.mem_filterMap.mp (List.mem_of_mem_drop hm)
  exact cleanOpt_eq_some name e m hsome

theorem foldl_append_string (l : List String) (init : String) :
    l.foldl (fun r s => r ++ s) init = init ++ l.foldl (fun r s => r ++ s) "" := by
  induction l generalizing init with
  | nil => simp
  | cons a l ih =>
    simp only [List.foldl_cons]
    rw [ih (init ++ a), ih ("" ++ a), String.empty_append, String.append_assoc]

theorem join_filterMap_fragText (frags : List Fragment) :
    String.join (frags.filterMap fragText) = flattenSpec frags := by
  induction frags with
  | nil => rfl
  | cons f rest ih =>
    cases f with
    | withText s =>
      simp only [List.filterMap_cons, fragText, flattenSpec, String.join, List.foldl_cons]
      rw [String.empty_append, foldl_append_string]
      rw [← ih]
      rfl
    | withoutText =>
      simp only [List.filterMap_cons, fragText, flattenSpec]
      exact ih

/-- C1: for every raw message sequence, interlocutor name and cap, the output
of `clean_data` has length at most the cap, and every output element's
`from` field equals the requested interlocutor name exactly (case-sensitive
string equality). -/
theorem C1_extract_bounded_and_from_exact (data : List RawEntry) (name : String) (maxM : Nat) :
    (clean_data data name maxM).length ≤ maxM ∧
      (clean_data data name maxM).all (fun m => m.fromName == name) = true := by
  constructor
  · rw [clean_data_eq_drop, List.length_drop]
    omega
  · rw [List.all_eq_true]
    intro m hm
    have h := (mem_clean_data data name maxM m hm).1
    simp [h]

/-- C2: when the qualifying messages (dict entry, sender equal to the name,
flattened text non-blank after stripping) number more than the cap,
`clean_data` returns exactly the most recent `maxM` of them: the last `maxM`
entries of the in-order cleaned qualifying list, and its length is exactly
`maxM`. -/
theorem C2_extract_most_recent (data : List RawEntry) (name : String) (maxM : Nat)
    (h : maxM < (List.filterMap (cleanOpt name) data).length) :
    clean_data data name maxM =
      (List.filterMap (cleanOpt name) data).drop
        ((List.filterMap (cleanOpt name) data).length - maxM) ∧
      (clean_data data name maxM).length = maxM := by
  refine ⟨clean_data_eq_drop data name maxM, ?_⟩
  rw [clean_data_eq_drop, List.length_drop]
  omega

theorem C2_witness :
    2 < (List.filterMap (cleanOpt "A") dataRecent).length ∧
      (clean_data dataRecent "A" 2 =
        (List.filterMap (cleanOpt "A") dataRecent).drop
          ((List.filterMap (cleanOpt "A") dataRecent).length - 2) ∧
        (clean_data dataRecent "A" 2).length = 2) :=
  ⟨by decide, C2_extract_most_recent dataRecent "A" 2 (by decide)⟩

/-- C3: the output of `clean_data` is a sublist (order-preserving selection)
of the in-order cleaned qualifying list of the input, so the kept messages
appear in the output in the same relative order in which they appear in the
input sequence, despite the reverse scan. -/
theorem C3_extract_preserves_order (data : List RawEntry) (name : String) (maxM : Nat) :
    List.Sublist (clean_data data name maxM) (List.filterMap (cleanOpt name) data) := by
  rw [clean_data_eq_drop]
  exact List.drop_sublist _ _

/-- C4 counterexample: on an export whose only qualifying message has text
`" hi "`, `clean_data` stores the text with its leading and trailing
whitespace intact, so the stored text is not whitespace-trimmed. -/
theorem C4_counterexample :
    (clean_data dataPadded "Alice" 750).all (fun m => pyStrip m.text == m.text) = false ∧
      clean_data dataPadded "Alice" 750 =
        [{ fromName := "Alice", text := " hi ", date := "" }] :=
  ⟨by decide, by decide⟩

/-- C4 (amended): every CleanedMessage produced by `clean_data` has a `text`
that is non-empty and not whitespace-only (its strip is non-empty); the
stored text is the flattened text as extracted and may retain leading or
trailing whitespace. -/
theorem C4_amended_text_nonblank (data : List RawEntry) (name : String) (maxM : Nat) :
    (clean_data data name maxM).all
      (fun m => !(pyStrip m.text == "") && !(m.text == "")) = true := by
  rw [List.all_eq_true]
  intro m hm
  have h2 := (mem_clean_data data name maxM m hm).2
  have h3 : m.text ≠ "" := fun hempty => h2 (by rw [hempty]; rfl)
  simp [h2, h3]

/-- C5: when a raw `text` field is a fragment list, the extracted text is the
concatenation, in list order, of the `text` sub-field of every fragment that
has one, ignoring fragments without one; in particular the fragment list
`[{text:"foo"}, {other:1}, {text:"bar"}]` flattens to `"foobar"` and is kept
by `clean_data` as such. -/
theorem C5_fragment_flattening :
    (∀ frags : List Fragment, extractText (RawText.list frags) = flattenSpec frags) ∧
      clean_data
        [RawEntry.dict (some "A")
          (RawText.list
            [Fragment.withText "foo", Fragment.withoutText, Fragment.withText "bar"])
          none] "A" 750 =
        [{ fromName := "A", text := "foobar", date := "" }] := by
  constructor
  · intro frags
    exact join_filterMap_fragText frags
  · decide

/-- C6: the completion adapter never propagates a failure: for every failing
outcome of the external model call, `get_ai_response` returns the fixed
fallback string, and the chat handler emits exactly that string, appends it
to the history as the assistant turn, and stays in the `CHAT_MODE` state. -/
theorem C6_completion_failure_fallback (err : String) (userInput : String)
    (history : List Turn) :
    get_ai_response (Except.error err) = fallback_message ∧
      (chat_mode userInput history (Except.error err)).2.1 = fallback_message ∧
      (chat_mode userInput history (Except.error err)).2.2 = ConvState.CHAT_MODE ∧
      (chat_mode userInput history (Except.error err)).1 =
        history ++ [{ role := "user", content := userInput },
                    { role := "assistant", content := fallback_message }] := by
  refine ⟨rfl, rfl, rfl, ?_⟩
  simp [chat_mode, get_ai_response]

/-- C7: in the awaiting-name state, when extraction yields an empty
transcript for the given name, the handler reports that no messages from
that name were found and returns the `GET_NAME` state (allowing a retry),
storing no prompt and no history. -/
theorem C7_empty_transcript_stays_awaiting (name : String) (msgs : List RawEntry)
    (h : clean_data msgs name DEFAULT_MESSAGES_COUNT = []) :
    handle_interlocutor_name name (some msgs) =
      { reply := Reply.noMessagesFound name, nextState := ConvState.GET_NAME,
        storedPrompt := none, storedHistory := none } := by
  simp [handle_interlocutor_name, h]

theorem C7_witness :
    clean_data dataNoCarol "Carol" DEFAULT_MESSAGES_COUNT = [] ∧
      handle_interlocutor_name "Carol" (some dataNoCarol) =
        { reply := Reply.noMessagesFound "Carol", nextState := ConvState.GET_NAME,
          storedPrompt := none, storedHistory := none } :=
  ⟨by decide, C7_empty_transcript_stays_awaiting "Carol" dataNoCarol (by decide)⟩

/-- C8: the style prompt builder is a pure function of the name and the
transcript: it equals the spec-side rendering that formats each message as
`"{from} ({date}): {text}"`, joins the lines with newlines in transcript
order, and wraps them in the fixed instruction template, so equal inputs
yield byte-identical output. -/
theorem C8_generate_prompt_is_spec_render (name : String)
    (transcript : List CleanedMessage) :
    generate_prompt name transcript = buildSpec name transcript := by
  unfold generate_prompt buildSpec promptHead promptTail renderLineSpec
  simp only [String.append_assoc]
  rw [← String.append_assoc ".\n" "Вот примеры его сообщений:\n\n", ← String.append_assoc "\n\n"
    "Отвечай так, как бы ответил этот человек, сохраняя его стиль, "]
  rfl

/-- C9: when the name-processing step runs with no stored raw export data,
the handler reports the missing-data error and returns the end-of-conversation
state instead of attempting extraction. -/
theorem C9_missing_data_ends_session (name : String) :
    handle_interlocutor_name name none =
      { reply := Reply.missingData, nextState := ConvState.END,
        storedPrompt := none, storedHistory := none } := rfl

end Bot
